import Mathlib

/-!
# Verification of the `equasis-cli` interactive shell

A shallow embedding of `src/equasis_cli/interactive.py` (class
`InteractiveShell`), together with theorems settling the frozen claims
about the shell: overlay-menu candidate computation and selection
clamping, key-binding state transitions, history navigation, slash
parameter parsing, the command dispatcher, and the async submit path.

Python strings are modelled as Lean `String`s (operating on code points,
as Python does); Python dicts keyed by strings are modelled as
association lists inserted first-wins; Python exceptions are modelled by
an explicit `PyExc` type with fallible functions returning
`Except PyExc ·`.  External collaborators (environment variables, the
credentials file, the network-backed `EquasisClient`, the formatter and
the filesystem) are modelled by an `Oracle` record supplying their
outcomes; every in-repo wrapper around them is translated faithfully,
including each `try/except` clause.
-/

namespace EquasisShell

/-- Python truthiness of an `Optional[str]`: `None` and `""` are falsy. -/
def truthy : Option String → Bool
  | none => false
  | some s => s ≠ ""

/-- Python `str.lower()` (code-point-wise; ASCII suffices here). -/
def lowerStr (s : String) : String :=
  String.mk (s.data.map Char.toLower)

/-- Python slicing `s[n:]` by code points. -/
def dropStr (s : String) (n : Nat) : String :=
  String.mk (s.data.drop n)

/-- Python `s.startswith('/')`. -/
def startsSlash (s : String) : Bool :=
  ['/'].isPrefixOf s.data

/-- Python `str.strip()`: drop whitespace from both ends. -/
def trimStr (s : String) : String :=
  String.mk (((s.data.dropWhile Char.isWhitespace).reverse.dropWhile
    Char.isWhitespace).reverse)

/-- Worker for `splitWs`: accumulate the current (reversed) token. -/
def splitWsGo : List Char → List Char → List (List Char)
  | [], acc => if acc = [] then [] else [acc.reverse]
  | c :: cs, acc =>
    if c.isWhitespace then
      if acc = [] then splitWsGo cs [] else acc.reverse :: splitWsGo cs []
    else splitWsGo cs (c :: acc)

/-- Python `str.split()` with no separator: split on whitespace runs,
no empty pieces. -/
def splitWs (s : String) : List String :=
  (splitWsGo s.data []).map String.mk

/-- Number of occurrences of character `c` in `s` (Python `s.count(c)`). -/
def countChar (s : String) (c : Char) : Nat :=
  s.data.count c

/-- Index of the last occurrence of `c` in `s` (Python `s.rfind(c)`,
`none` for `-1`). -/
def rfindChar (s : String) (c : Char) : Option Nat :=
  let idxs := (List.range s.data.length).filter (fun i => s.data.getD i ' ' = c)
  idxs.getLast?

/-- Test that `needle` occurs as a contiguous substring of `haystack`
(Python `needle in haystack`), on code-point lists. -/
def subOf (needle haystack : List Char) : Bool :=
  (List.range (haystack.length + 1)).any
    (fun i => needle.isPrefixOf (haystack.drop i))

/-- Substring test on strings (Python `a in b`). -/
def strIn (needle haystack : String) : Bool :=
  subOf (needle.data) haystack.data

/-- The primary command list of `_get_filtered_commands`
(interactive.py lines 425-435). -/
def allCommands : List (String × String) :=
  [("vessel", "Get vessel information by IMO"),
   ("search", "Search vessels by name or IMO"),
   ("fleet", "Get company fleet information"),
   ("batch", "Process multiple vessels/companies"),
   ("format", "Set default output format"),
   ("status", "Show connection status"),
   ("clear", "Clear output screen"),
   ("help", "Show detailed help for command"),
   ("exit", "Exit interactive mode")]

/-- Parameters offered after `vessel` (interactive.py lines 451-456). -/
def vesselParams : List (String × String) :=
  [("imo", "IMO number (required)"),
   ("format", "Output format: table, json, csv"),
   ("output", "Save to file")]

/-- Parameters offered after `search` (interactive.py lines 457-463). -/
def searchParams : List (String × String) :=
  [("name", "Vessel name to search"),
   ("imo", "IMO number to search"),
   ("format", "Output format: table, json, csv"),
   ("output", "Save to file")]

/-- Parameters offered after `fleet` (interactive.py lines 464-469). -/
def fleetParams : List (String × String) :=
  [("company", "Company name (required)"),
   ("format", "Output format: table, json, csv"),
   ("output", "Save to file")]

/-- Parameters offered after `batch` (interactive.py lines 470-478). -/
def batchParams : List (String × String) :=
  [("imos", "Comma-separated IMO numbers"),
   ("file", "File with IMO numbers"),
   ("companies", "Comma-separated company names"),
   ("company-file", "File with company names"),
   ("format", "Output format: table, json, csv"),
   ("output", "Save to file")]

/-- The generic fallback parameter list (interactive.py lines 479-484). -/
def defaultParams : List (String × String) :=
  [("format", "Output format: table, json, csv"),
   ("output", "Save to file")]

/-- Embedding of `InteractiveShell._get_filtered_commands` (interactive.py lines
416-495), translated line by line: chooses primary commands when the
input has at most one whitespace token or contains no `/`, otherwise the
parameter list of the first token, then filters by the partial token. -/
def getFilteredCommands (text : String) : List (String × String) :=
  let parts := splitWs text
  if parts.length ≤ 1 ∨ countChar text '/' = 0 then
    if startsSlash text then
      let filterText := lowerStr (dropStr text 1)
      if filterText ≠ "" then
        allCommands.filter (fun p => strIn filterText (lowerStr p.1))
      else allCommands
    else allCommands
  else
    let firstPart := lowerStr (parts.headD "")
    let params :=
      if firstPart = "vessel" then vesselParams
      else if firstPart = "search" then searchParams
      else if firstPart = "fleet" then fleetParams
      else if firstPart = "batch" then batchParams
      else defaultParams
    match rfindChar text '/' with
    | some i =>
        let filterText := lowerStr (dropStr text (i + 1))
        if filterText ≠ "" then
          params.filter (fun p => strIn filterText (lowerStr p.1))
        else params
    | none => params

/-- Candidate-set half of `_get_filtered_commands`: the list the code
chooses before any filtering is applied. -/
def codeCandidateSet (text : String) : List (String × String) :=
  let parts := splitWs text
  if parts.length ≤ 1 ∨ countChar text '/' = 0 then allCommands
  else
    let firstPart := lowerStr (parts.headD "")
    if firstPart = "vessel" then vesselParams
    else if firstPart = "search" then searchParams
    else if firstPart = "fleet" then fleetParams
    else if firstPart = "batch" then batchParams
    else defaultParams

/-- Filtering half of `_get_filtered_commands`: keep candidates whose
name contains the lower-cased partial token; in the primary branch the
code filters only when the text starts with `/`. -/
def codeApplyFilter (text : String) (cands : List (String × String)) :
    List (String × String) :=
  let parts := splitWs text
  if parts.length ≤ 1 ∨ countChar text '/' = 0 then
    if startsSlash text then
      let filterText := lowerStr (dropStr text 1)
      if filterText ≠ "" then
        cands.filter (fun p => strIn filterText (lowerStr p.1))
      else cands
    else cands
  else
    match rfindChar text '/' with
    | some i =>
        let filterText := lowerStr (dropStr text (i + 1))
        if filterText ≠ "" then
          cands.filter (fun p => strIn filterText (lowerStr p.1))
        else cands
    | none => cands

/-- Modelled from the spec (claim C4 / spec §4.4): the candidate-set
selection rule as the claim states it — primary list when the text
contains no `/` or exactly one `/` at position 0; otherwise the
parameter list registered for the first whitespace-delimited token, with
the generic fallback for unrecognized tokens.  Written to the spec's
words for refinement comparison against `codeCandidateSet`. -/
def specCandidateSet (text : String) : List (String × String) :=
  let n := countChar text '/'
  if n = 0 ∨ (n = 1 ∧ startsSlash text) then allCommands
  else
    let firstTok := lowerStr ((splitWs text).headD "")
    if firstTok = "vessel" then vesselParams
    else if firstTok = "search" then searchParams
    else if firstTok = "fleet" then fleetParams
    else if firstTok = "batch" then batchParams
    else defaultParams


/-- Which buffer has keyboard focus (`get_app().layout.focus`):
the input line or the scrollback output buffer ("scroll mode"). -/
inductive Focus
  | inputBuf
  | outputBuf
deriving DecidableEq, Repr

/-- The mutable state of `InteractiveShell` (interactive.py lines
141-196) that the claims concern: menu flags and selection, loading
state, the output transcript (list of appended blocks), the input
buffer, command history with its lazily created `_history_index`
(modelled as `Option Nat`), and status fields.  `client` abstracts
`self.client : Optional[EquasisClient]`. -/
structure Shell where
  client : Option Unit
  outputFormat : String
  debugMode : Bool
  loggedIn : Bool
  running : Bool
  connectionStatus : String
  lastOperation : String
  showHelpMenu : Bool
  showSlashMenu : Bool
  slashMenuIndex : Nat
  isLoading : Bool
  loadingMessage : String
  loadingDetail : String
  spinnerFrame : Nat
  shineOffset : Nat
  transcript : List String
  inputText : String
  cursorPos : Nat
  history : List String
  historyIndex : Option Nat
  focus : Focus
  outputCursor : Nat
deriving DecidableEq, Repr

/-- The state right after `InteractiveShell.__init__`. -/
def initShell : Shell :=
  { client := none, outputFormat := "table", debugMode := false
    loggedIn := false, running := true
    connectionStatus := "Not connected", lastOperation := ""
    showHelpMenu := false, showSlashMenu := false, slashMenuIndex := 0
    isLoading := false, loadingMessage := "", loadingDetail := ""
    spinnerFrame := 0, shineOffset := 0
    transcript := [], inputText := "", cursorPos := 0
    history := [], historyIndex := none
    focus := .inputBuf, outputCursor := 0 }

/-- Embedding of `InteractiveShell._append_output`: append one block to the
transcript (the trailing newline separator is implicit). -/
def appendOutput (s : Shell) (t : String) : Shell :=
  { s with transcript := s.transcript ++ [t] }

/-- Insert one character into the input buffer at the cursor
(prompt_toolkit `Buffer.insert_text`). -/
def insertChar (s : Shell) (c : Char) : Shell :=
  { s with
    inputText := String.mk (s.inputText.data.take s.cursorPos ++
      c :: s.inputText.data.drop s.cursorPos)
    cursorPos := s.cursorPos + 1 }

/-- prompt_toolkit `Buffer.delete_before_cursor(count=1)`, guarded by
`if buff.text:` as in the backspace binding. -/
def deleteBefore (s : Shell) : Shell :=
  if s.inputText = "" then s
  else if s.cursorPos = 0 then s
  else
    { s with
      inputText := String.mk (s.inputText.data.take (s.cursorPos - 1) ++
        s.inputText.data.drop s.cursorPos)
      cursorPos := s.cursorPos - 1 }

/-- Embedding of `InteractiveShell._process_input` (interactive.py lines 754-833):
returns the updated shell plus the command handed to the background
dispatch task (`app.create_background_task(process_async())`), if any.
There is no check of `is_loading` anywhere in this function. -/
def processInput (s : Shell) : Shell × Option String :=
  let commandText := trimStr s.inputText
  if commandText = "" then (s, none)
  else
    let s := { s with history := s.history ++ [commandText] }
    let s := { s with historyIndex := some s.history.length }
    let s := { s with inputText := "", cursorPos := 0 }
    let s := appendOutput s ("❯ " ++ commandText)
    if commandText = "exit" ∨ commandText = "quit" then
      ({ s with running := false }, none)
    else if commandText = "clear" then
      ({ s with transcript := [] }, none)
    else (s, some commandText)

/-- The keys with bindings in `_setup_key_bindings`, plus `chr c` for
any other printable key, which prompt_toolkit's default binding
self-inserts into the focused input buffer ('?', '/' and 'i' have
custom bindings and are separate constructors). -/
inductive Key
  | ctrlC | ctrlD | enter | tab | up | down | pageUp | pageDown
  | shiftUp | shiftDown | escape | keyI | ctrlK | ctrlJ | question
  | slash | backspace
  | chr (c : Char)
deriving DecidableEq, Repr

/-- One keystroke handled by the bindings of `_setup_key_bindings`
(interactive.py lines 198-399), translated case by case. -/
def stepKey (s : Shell) (k : Key) : Shell :=
  match k with
  | .ctrlC =>
      { s with inputText := "", cursorPos := 0
               showHelpMenu := false, showSlashMenu := false }
  | .ctrlD => { s with running := false }
  | .enter =>
      let s := { s with showSlashMenu := false, showHelpMenu := false
                        slashMenuIndex := 0 }
      (processInput s).1
  | .tab =>
      if s.showSlashMenu then
        let filtered := getFilteredCommands s.inputText
        let s1 :=
          if filtered ≠ [] ∧ s.slashMenuIndex < filtered.length then
            let selected := (filtered.getD s.slashMenuIndex ("", "")).1
            let bufferText := s.inputText
            let slashCount := countChar bufferText '/'
            let isPrimary := slashCount = 0 ∨
              (slashCount = 1 ∧ startsSlash bufferText)
            if isPrimary then
              let newText := selected ++ " "
              { s with inputText := newText, cursorPos := newText.data.length }
            else
              match rfindChar bufferText '/' with
              | some i =>
                  let newText := String.mk (bufferText.data.take i) ++ "/" ++
                    selected ++ " "
                  { s with inputText := newText
                           cursorPos := newText.data.length }
              | none => s
          else s
        { s1 with showSlashMenu := false, slashMenuIndex := 0 }
      else s
  | .up =>
      if s.focus = .outputBuf then { s with outputCursor := s.outputCursor - 1 }
      else if s.showSlashMenu then
        let filtered := getFilteredCommands s.inputText
        if filtered ≠ [] then
          { s with slashMenuIndex := s.slashMenuIndex - 1 }
        else s
      else
        if s.history ≠ [] then
          let idx := (s.historyIndex.getD s.history.length) - 1
          let s := { s with historyIndex := some idx }
          if idx < s.history.length then
            let entry := s.history.getD idx ""
            { s with inputText := entry, cursorPos := entry.data.length }
          else s
        else s
  | .down =>
      if s.focus = .outputBuf then { s with outputCursor := s.outputCursor + 1 }
      else if s.showSlashMenu then
        let filtered := getFilteredCommands s.inputText
        if filtered ≠ [] then
          let newIdx := min (filtered.length - 1) (s.slashMenuIndex + 1)
          { s with slashMenuIndex := newIdx }
        else s
      else
        if s.history ≠ [] ∧ s.historyIndex.isSome then
          let idx := min s.history.length (s.historyIndex.getD 0 + 1)
          let s := { s with historyIndex := some idx }
          if idx < s.history.length then
            let entry := s.history.getD idx ""
            { s with inputText := entry, cursorPos := entry.data.length }
          else { s with inputText := "", cursorPos := 0 }
        else s
  | .pageUp => { s with outputCursor := s.outputCursor - 10 }
  | .pageDown => { s with outputCursor := s.outputCursor + 10 }
  | .shiftUp => { s with outputCursor := s.outputCursor - 1 }
  | .shiftDown => { s with outputCursor := s.outputCursor + 1 }
  | .escape =>
      if s.showHelpMenu = false ∧ s.showSlashMenu = false then
        { s with focus := .outputBuf
                 lastOperation :=
                   "Scroll mode • Press i or type to return to input" }
      else s
  | .keyI =>
      if s.focus = .outputBuf then
        { s with focus := .inputBuf, lastOperation := "" }
      else insertChar s 'i'
  | .ctrlK => { s with outputCursor := s.outputCursor - 5 }
  | .ctrlJ => { s with outputCursor := s.outputCursor + 5 }
  | .question =>
      { s with showHelpMenu := !s.showHelpMenu, showSlashMenu := false }
  | .slash =>
      let s := insertChar s '/'
      { s with showSlashMenu := true, showHelpMenu := false
               slashMenuIndex := 0 }
  | .backspace =>
      let s := deleteBefore s
      if startsSlash s.inputText = false then
        { s with showSlashMenu := false, slashMenuIndex := 0 }
      else { s with slashMenuIndex := 0 }
  | .chr c => insertChar s c

/-- The clamp at the top of `_create_slash_menu_content` (interactive.py
lines 497-503), run whenever the slash overlay is rendered: an
out-of-range selection index is pulled back to `len(commands) - 1`
(or 0 when the filtered list is empty). -/
def renderClamp (s : Shell) : Shell :=
  let commands := getFilteredCommands s.inputText
  if s.slashMenuIndex ≥ commands.length then
    { s with slashMenuIndex := if commands ≠ [] then commands.length - 1 else 0 }
  else s

/-- Shell plus the orchestrator's in-flight dispatches: commands whose
worker has been submitted to the executor (`loop.run_in_executor`) and
has not completed.  `create_background_task` schedules `process_async`,
which unconditionally sets the loading state and submits the worker. -/
structure AppState where
  shell : Shell
  inFlight : List String
deriving DecidableEq, Repr

/-- The synchronous prefix of `process_async` (interactive.py lines
787-821): show the loading indicator and submit the blocking work. -/
def startDispatch (s : Shell) : Shell :=
  { s with isLoading := true, loadingMessage := "Processing..."
           loadingDetail := "", spinnerFrame := 0, shineOffset := 0 }

/-- Submitting the current input line: `_process_input` followed by the
start of the background dispatch task it creates (if any). -/
def submitEvent (a : AppState) : AppState :=
  match processInput a.shell with
  | (s, none) => { shell := s, inFlight := a.inFlight }
  | (s, some cmd) =>
      { shell := startDispatch s, inFlight := a.inFlight ++ [cmd] }

/-- Python `\\w`: word character (ASCII model). -/
def isWordChar (c : Char) : Bool := c.isAlphanum || c = '_'

/-- Match the regex `/(\\w+)\\s+q([^q]+)q` (`q` the quote character) at
the head of the input; on success return the two capture groups and the
remaining input.  Greedy matching needs no backtracking here because the
adjacent character classes are disjoint. -/
def tryQuoted (q : Char) (l : List Char) : Option (String × String × List Char) :=
  match l with
  | '/' :: r0 =>
    let w := r0.takeWhile isWordChar
    if w = [] then none else
    let r1 := r0.drop w.length
    let sp := r1.takeWhile Char.isWhitespace
    if sp = [] then none else
    match r1.drop sp.length with
    | c :: r3 =>
      if c = q then
        let v := r3.takeWhile (fun d => d ≠ q)
        if v = [] then none else
        match r3.drop v.length with
        | c2 :: r4 => if c2 = q then some (String.mk w, String.mk v, r4) else none
        | [] => none
      else none
    | [] => none
  | _ => none

/-- Match the regex `/(\\w+)\\s+(\\S+)` at the head of the input. -/
def tryUnquoted (l : List Char) : Option (String × String × List Char) :=
  match l with
  | '/' :: r0 =>
    let w := r0.takeWhile isWordChar
    if w = [] then none else
    let r1 := r0.drop w.length
    let sp := r1.takeWhile Char.isWhitespace
    if sp = [] then none else
    let r2 := r1.drop sp.length
    let v := r2.takeWhile (fun d => !d.isWhitespace)
    if v = [] then none else
    some (String.mk w, String.mk v, r2.drop v.length)
  | _ => none

/-- Python `re.findall`: leftmost non-overlapping matches, scanning left
to right; continue after each match, else advance one character.  The
fuel argument bounds the recursion; every step strictly shortens the
input, so `length + 1` fuel is always enough. -/
def findallGo (tryM : List Char → Option (String × String × List Char)) :
    Nat → List Char → List (String × String)
  | 0, _ => []
  | _ + 1, [] => []
  | fuel + 1, l@(_ :: cs) =>
    match tryM l with
    | some (k, v, rest) => (k, v) :: findallGo tryM fuel rest
    | none => findallGo tryM fuel cs

/-- Python `re.findall(pattern, line)` for one of the slash-parameter patterns. -/
def findall (tryM : List Char → Option (String × String × List Char))
    (line : String) : List (String × String) :=
  findallGo tryM (line.data.length + 1) line.data

/-- All matches of the five patterns of `parse_slash_command`
(interactive.py lines 888-894) in pattern order: the double-quoted
pattern appears three times verbatim in the source, then the
single-quoted pattern, then the unquoted pattern. -/
def allMatches (line : String) : List (String × String) :=
  findall (tryQuoted '"') line ++ findall (tryQuoted '"') line ++
  findall (tryQuoted '"') line ++ findall (tryQuoted '\'') line ++
  findall tryUnquoted line

/-- Python `if param not in params: params[param] = value`, on an association
list: the first registration of a key wins. -/
def insertIfAbsent (acc : List (String × String)) (m : String × String) :
    List (String × String) :=
  if acc.any (fun p => p.1 = m.1) then acc else acc ++ [m]

/-- Python `params.get(k)` on the association-list model of the dict. -/
def lookupParam (params : List (String × String)) (k : String) :
    Option String :=
  (params.find? (fun p => p.1 = k)).map (fun p => p.2)

/-- Embedding of `InteractiveShell.parse_slash_command` (interactive.py lines
884-910): scan the line with each pattern in turn, keep the first value
registered for each key, and report whether every required expected
parameter is present. -/
def parseSlashCommand (line : String) (expected : List (String × Bool)) :
    List (String × String) × Bool :=
  let params := (allMatches line).foldl insertIfAbsent []
  let allRequired :=
    expected.all (fun e => !e.2 || params.any (fun p => p.1 = e.1))
  (params, allRequired)

/-- Python exception classes relevant to the shell.
`UnicodeDecodeError` subclasses `ValueError`; `JSONDecodeError` also
subclasses `ValueError` but `UnicodeDecodeError` is not a
`JSONDecodeError`; `IOError` is `OSError`. -/
inductive PyExc
  | ioError
  | jsonDecodeError
  | unicodeDecodeError
  | otherExc (msg : String)
deriving DecidableEq, Repr

/-- Which exceptions the `except (json.JSONDecodeError, IOError)` clause
of `CredentialManager._load_from_config` (credentials.py lines 94-96)
catches.  A `UnicodeDecodeError` raised by `json.load` on a non-UTF-8
credentials file is neither and is not caught. -/
def caughtByConfigClause : PyExc → Bool
  | .ioError => true
  | .jsonDecodeError => true
  | _ => false

/-- Rendering `f"{e}"` of an exception into an `Error: {e}` line. -/
def pyStr : PyExc → String
  | .ioError => "IOError"
  | .jsonDecodeError => "JSONDecodeError"
  | .unicodeDecodeError => "UnicodeDecodeError"
  | .otherExc m => m

/-- Outcomes of the external collaborators reached from the dispatcher:
environment variables, the credentials file, `EquasisClient` (whose
`login`/`search_vessel_by_imo`/`search_vessel_by_name` wrap all their
work in `try/except` and return plain values — client.py lines 222-341 —
so they are total), the formatter (arbitrary in-repo code, allowed to
raise; its callers catch) and the output-file write.  Vessel records are
abstracted as opaque string payloads. -/
structure Oracle where
  envUsername : Option String
  envPassword : Option String
  credFileExists : Bool
  credJsonLoad : Except PyExc (Option String × Option String)
  loginResult : Bool
  reloginResult : Bool
  vesselLookup : String → Option String
  searchByName : String → List String
  formatVessel : String → String → Except PyExc String
  formatList : List String → String → Except PyExc String
  fileWrite : String → String → Except PyExc Unit

/-- Embedding of `CredentialManager._load_from_config` (credentials.py lines 80-96):
missing file yields `(None, None)`; `json.load` outcomes are passed
through, with only `JSONDecodeError` and `IOError` converted to
`(None, None)` — any other exception propagates. -/
def loadFromConfig (o : Oracle) : Except PyExc (Option String × Option String) :=
  if o.credFileExists = false then .ok (none, none)
  else
    match o.credJsonLoad with
    | .ok cfg => .ok cfg
    | .error e => if caughtByConfigClause e then .ok (none, none) else .error e

/-- Embedding of `CredentialManager.get_credentials` (credentials.py lines 41-77) as
called by the shell (no argument credentials, so the command-line branch
is skipped): environment variables first, then the config file. -/
def getCredentials (o : Oracle) : Except PyExc (Option String × Option String) :=
  if truthy o.envUsername && truthy o.envPassword then
    .ok (o.envUsername, o.envPassword)
  else
    match loadFromConfig o with
    | .error e => .error e
    | .ok (cu, cp) =>
        if truthy cu && truthy cp then .ok (cu, cp) else .ok (none, none)

/-- The trailing reconnect block of `ensure_authenticated`
(interactive.py lines 944-949): `client.login()` is total (client.py
lines 222-253 wrap everything in `try/except` returning `bool`). -/
def reconnectCheck (o : Oracle) (s : Shell) : Shell × Bool :=
  if s.loggedIn = false then
    let s := { s with lastOperation := "Reconnecting..." }
    let li := o.reloginResult
    let s := { s with loggedIn := li
                      lastOperation := if li then "" else "Reconnect failed" }
    (s, li)
  else (s, true)

/-- Embedding of `InteractiveShell.ensure_authenticated` (interactive.py lines
912-949).  The `get_credential_manager().get_credentials()` call at
lines 915-916 sits OUTSIDE the `try` that starts at line 923, so an
exception from credential loading propagates; the `except Exception`
branch at lines 939-942 guards only client construction and first
login, which are total, so it is never taken in the model. -/
def ensureAuthenticated (o : Oracle) (s : Shell) : Except PyExc (Shell × Bool) :=
  match s.client with
  | none =>
    match getCredentials o with
    | .error e => .error e
    | .ok (username, password) =>
      if !(truthy username && truthy password) then
        let s := appendOutput s
          "\nNo credentials found. Please configure credentials first."
        let s := appendOutput s "Run: equasis configure --setup"
        .ok (s, false)
      else
        let s := { s with loadingMessage := "Connecting..."
                          loadingDetail := "Authenticating with Equasis"
                          lastOperation := "Connecting..." }
        let s := { s with client := some (), loggedIn := o.loginResult }
        if o.loginResult then
          let s := { s with connectionStatus := "Connected", lastOperation := "" }
          .ok (reconnectCheck o s)
        else
          let s := appendOutput s "✗ Authentication failed"
          .ok ({ s with lastOperation := "Auth failed" }, false)
  | some _ => .ok (reconnectCheck o s)

/-- Expected parameters of the `vessel` command (interactive.py 953). -/
def vesselExpected : List (String × Bool) :=
  [("imo", true), ("format", false), ("output", false)]

/-- Embedding of `InteractiveShell._cmd_vessel` (interactive.py lines 951-989). -/
def cmdVessel (o : Oracle) (s : Shell) (args : String) : Except PyExc Shell :=
  let pr := parseSlashCommand args vesselExpected
  if pr.2 = false then
    let s := appendOutput s "Error: Missing required parameter /imo"
    .ok (appendOutput s "Usage: vessel /imo <IMO_NUMBER> [/format table|json|csv]")
  else
    match ensureAuthenticated o s with
    | .error e => .error e
    | .ok (s, auth) =>
      if auth = false then .ok s
      else
        let params := pr.1
        let outputFmt := (lookupParam params "format").getD s.outputFormat
        let outputFile := lookupParam params "output"
        let imo := (lookupParam params "imo").getD ""
        let s := { s with loadingMessage := "Osinting..."
                          loadingDetail := "Searching IMO " ++ imo
                          lastOperation := "Fetching IMO " ++ imo ++ "..." }
        match o.vesselLookup imo with
        | some vessel =>
          match o.formatVessel vessel outputFmt with
          | .error e =>
              .ok (appendOutput { s with lastOperation := "✗ Error" }
                ("Error: " ++ pyStr e))
          | .ok out =>
            match outputFile with
            | some f =>
              match o.fileWrite f out with
              | .error e =>
                  .ok (appendOutput { s with lastOperation := "✗ Error" }
                    ("Error: " ++ pyStr e))
              | .ok _ =>
                let s := appendOutput s ("✓ Vessel data saved to " ++ f)
                .ok { s with lastOperation := "✓ Vessel " ++ imo ++ " found" }
            | none =>
              let s := appendOutput s out
              .ok { s with lastOperation := "✓ Vessel " ++ imo ++ " found" }
        | none =>
          let s := appendOutput s ("No vessel found with IMO: " ++ imo)
          .ok { s with lastOperation := "✗ Vessel " ++ imo ++ " not found" }

/-- Expected parameters of the `search` command (interactive.py 993). -/
def searchExpected : List (String × Bool) :=
  [("name", false), ("imo", false), ("format", false), ("output", false)]

/-- Embedding of `InteractiveShell._cmd_search` (interactive.py lines 991-1027). -/
def cmdSearch (o : Oracle) (s : Shell) (args : String) : Except PyExc Shell :=
  let pr := parseSlashCommand args searchExpected
  let params := pr.1
  let nameVal := lookupParam params "name"
  let imoVal := lookupParam params "imo"
  if (truthy nameVal || truthy imoVal) = false then
    .ok (appendOutput s "Error: Missing required parameter /name or /imo")
  else
    match ensureAuthenticated o s with
    | .error e => .error e
    | .ok (s, auth) =>
      if auth = false then .ok s
      else
        let outputFmt := (lookupParam params "format").getD s.outputFormat
        let s :=
          if truthy imoVal then
            { s with lastOperation :=
                "Searching IMO '" ++ imoVal.getD "" ++ "'..." }
          else
            { s with lastOperation :=
                "Searching '" ++ nameVal.getD "" ++ "'..." }
        let vessels :=
          if truthy imoVal then o.searchByName (imoVal.getD "")
          else o.searchByName (nameVal.getD "")
        if vessels ≠ [] then
          match o.formatList vessels outputFmt with
          | .error e =>
              .ok (appendOutput { s with lastOperation := "✗ Error" }
                ("Error: " ++ pyStr e))
          | .ok out =>
            let s := appendOutput s out
            .ok { s with lastOperation :=
                "✓ Found " ++ toString vessels.length ++ " vessel(s)" }
        else
          let searchTerm := if truthy imoVal then imoVal.getD ""
                            else nameVal.getD ""
          let s := appendOutput s ("No vessels found matching: " ++ searchTerm)
          .ok { s with lastOperation := "✗ No vessels found" }

/-- Embedding of `InteractiveShell._cmd_fleet` (interactive.py lines 1029-1031). -/
def cmdFleet (s : Shell) (_args : String) : Shell :=
  appendOutput s "Fleet command - to be implemented"

/-- Embedding of `InteractiveShell._cmd_batch` (interactive.py lines 1033-1035). -/
def cmdBatch (s : Shell) (_args : String) : Shell :=
  appendOutput s "Batch command - to be implemented"

/-- Embedding of `InteractiveShell._cmd_format` (interactive.py lines 1037-1045). -/
def cmdFormat (s : Shell) (args : String) : Shell :=
  let args := lowerStr (trimStr args)
  if ["table", "json", "csv"].contains args then
    let s := { s with outputFormat := args
                      lastOperation := "Format set to " ++ args }
    appendOutput s ("Default output format set to: " ++ args)
  else appendOutput s "Invalid format. Use: table, json, or csv"

/-- Embedding of `InteractiveShell._cmd_status` (interactive.py lines 1047-1054). -/
def cmdStatus (s : Shell) (_args : String) : Shell :=
  let s := { s with lastOperation := "" }
  let s := appendOutput s "\nSession Status:"
  let statusText := if s.loggedIn then "Connected" else "Not connected"
  let s := appendOutput s ("  Authentication: " ++ statusText)
  let s := appendOutput s ("  Default Format: " ++ s.outputFormat)
  appendOutput s ("  Debug Mode: " ++
    (if s.debugMode then "True" else "False") ++ "\n")

/-- The lines `_cmd_help` appends (interactive.py lines 1056-1078). -/
def helpLines : List String :=
  let bar := String.mk (List.replicate 60 '=')
  ["\n" ++ bar,
   "EQUASIS CLI - INTERACTIVE MODE HELP",
   bar,
   "\nCommands:",
   "  vessel /imo <NUMBER>     Get vessel information",
   "  search /name \"<NAME>\"    Search vessels by name",
   "  search /imo <NUMBER>     Search by IMO number",
   "  fleet /company \"<NAME>\"  Get fleet information",
   "  format <table|json|csv>  Set output format",
   "  status                   Show session status",
   "  clear                    Clear output",
   "  help                     Show this help",
   "  exit                     Exit interactive mode",
   "\nKeyboard shortcuts:",
   "  ?              Show quick help",
   "  Up/Down        Navigate command history",
   "  Page Up/Down   Scroll output",
   "  Shift+Up/Down  Scroll output (one line)",
   "  Ctrl+C         Cancel current input",
   "  Ctrl+D         Exit",
   bar ++ "\n"]

/-- Embedding of `InteractiveShell._cmd_help`. -/
def cmdHelp (s : Shell) (_args : String) : Shell :=
  helpLines.foldl appendOutput s

/-- Python `line.split(maxsplit=1)`. -/
def splitMax1 (line : String) : List String :=
  let l := line.data.dropWhile Char.isWhitespace
  if l = [] then []
  else
    let tok := l.takeWhile (fun c => !c.isWhitespace)
    let rest := (l.drop tok.length).dropWhile Char.isWhitespace
    if rest = [] then [String.mk tok] else [String.mk tok, String.mk rest]

/-- Embedding of `InteractiveShell._process_command` (interactive.py lines 835-882):
parse the line, look the command up in the handler table, run the
handler under stdout/stderr capture.  The handlers write through
`_append_output` and never print, so the captured streams are empty and
replay appends nothing.  The capture block is `try/finally` with NO
`except` clause: an exception from the handler propagates to the
caller (modelled as an `Except.error` result). -/
def processCommand (o : Oracle) (s : Shell) (line : String) :
    Except PyExc Shell :=
  match splitMax1 line with
  | [] => .ok s
  | cmd0 :: rest =>
    let command := lowerStr cmd0
    let args := rest.headD ""
    if command = "vessel" then cmdVessel o s args
    else if command = "search" then cmdSearch o s args
    else if command = "fleet" then .ok (cmdFleet s args)
    else if command = "batch" then .ok (cmdBatch s args)
    else if command = "format" then .ok (cmdFormat s args)
    else if command = "status" then .ok (cmdStatus s args)
    else if command = "help" then .ok (cmdHelp s args)
    else
      let s := appendOutput s ("Unknown command: " ++ command)
      .ok (appendOutput s "Type 'help' for available commands")

/-! ## Theorems settling the claims -/

/-- Clamp correctness: after the `_create_slash_menu_content` clamp, the
selection index is strictly below the length of the freshly filtered
list whenever that list is non-empty. -/
theorem renderClamp_lt (t : Shell)
    (h : getFilteredCommands t.inputText ≠ []) :
    (renderClamp t).slashMenuIndex < (getFilteredCommands t.inputText).length := by
  unfold renderClamp
  by_cases hge : t.slashMenuIndex ≥ (getFilteredCommands t.inputText).length
  · simp only [hge, if_pos, if_true, h, ite_true, ne_eq, not_false_iff]
    have hpos : 0 < (getFilteredCommands t.inputText).length :=
      List.length_pos.mpr h
    simp [h]
    omega
  · simp only [hge, if_neg, ite_false]
    omega

/-- C4 (counterexample): on the input text `"vessel/"` — one `/`, not at
position 0, a single whitespace token — the claim's selection rule picks
the parameter branch and falls back to the generic `{format, output}`
list, but the code (`len(parts) <= 1 or not count('/')`) takes the
primary branch and offers the full, unfiltered primary command list. -/
theorem c4_counterexample :
    getFilteredCommands "vessel/" = allCommands ∧
    specCandidateSet "vessel/" = defaultParams ∧
    allCommands ≠ defaultParams := by decide

/-- C4 (amended): the candidate set is the primary command list iff the
text has at most one whitespace-delimited token OR contains no `/`;
otherwise it is the parameter list registered for the first token with
the `{format, output}` fallback; the result of
`_get_filtered_commands` is that candidate set with the partial-token
substring filter applied. -/
theorem c4_amended (text : String) :
    getFilteredCommands text = codeApplyFilter text (codeCandidateSet text) := by
  unfold getFilteredCommands codeApplyFilter codeCandidateSet
  by_cases h : (splitWs text).length ≤ 1 ∨ countChar text '/' = 0
  · simp only [if_pos h]
  · simp only [if_neg h]

/-- Keystroke trace for the C3 counterexample: type `batch `, open the
slash overlay with `/`, press Down five times (six parameter
candidates, so the selection lands on index 5), then insert `i`. -/
def c3Keys : List Key :=
  [.chr 'b', .chr 'a', .chr 't', .chr 'c', .chr 'h', .chr ' ', .slash,
   .down, .down, .down, .down, .down, .keyI]

/-- The shell state reached by `c3Keys` from the initial state. -/
def c3State : Shell := c3Keys.foldl stepKey initShell

/-- C3 (counterexample): after the `i` edit the filter text changes and
the filtered list shrinks to 4 items (`imos`, `file`, `companies`,
`company-file`), but the selection index is still 5 — outside
`[0, 4)` and not reset to 0; the render-time clamp then moves it to
3 = `len(items) - 1`, still not 0. -/
theorem c3_counterexample :
    c3State.showSlashMenu = true ∧
    c3State.inputText = "batch /i" ∧
    (getFilteredCommands c3State.inputText).length = 4 ∧
    c3State.slashMenuIndex = 5 ∧
    (renderClamp c3State).slashMenuIndex = 3 := by decide

/-- C3 (amended): after any keystroke, once the slash overlay is
re-rendered (`_create_slash_menu_content` clamps the index), the
selection index is inside `[0, len(items))` whenever the freshly
filtered list is non-empty; but a filter-changing character edit does
not itself reset the selection to 0 — only `/` and backspace do, and
the clamp targets `len(items) - 1`. -/
theorem c3_amended (s : Shell) (k : Key)
    (h : getFilteredCommands (stepKey s k).inputText ≠ []) :
    (renderClamp (stepKey s k)).slashMenuIndex <
      (getFilteredCommands (stepKey s k).inputText).length :=
  renderClamp_lt (stepKey s k) h

/-- Witness for `c3_amended` at `s = initShell`, `k = slash`. -/
theorem c3_amended_witness :
    getFilteredCommands (stepKey initShell Key.slash).inputText ≠ [] ∧
    (renderClamp (stepKey initShell Key.slash)).slashMenuIndex <
      (getFilteredCommands (stepKey initShell Key.slash).inputText).length :=
  ⟨by decide, c3_amended initShell Key.slash (by decide)⟩

/-- Shell with the slash overlay just opened by the `/` key. -/
def c5State : Shell := stepKey initShell Key.slash

/-- C5 (counterexample): with the Slash overlay open, Escape leaves the
overlay OPEN (the binding's body is guarded by
`if not show_help_menu and not show_slash_menu`), contradicting the
claim that Escape closes the open overlay; focus indeed stays on the
input line. -/
theorem c5_counterexample :
    c5State.showSlashMenu = true ∧
    (stepKey c5State Key.escape).showSlashMenu = true ∧
    (stepKey c5State Key.escape).focus = Focus.inputBuf := by decide

/-- C5 (amended): with any overlay open, Escape is a complete no-op —
it neither enters Scroll mode nor closes the overlay; with no overlay
open it enters Scroll mode (focuses the output buffer). -/
theorem c5_amended (s : Shell) :
    ((s.showHelpMenu = true ∨ s.showSlashMenu = true) →
      stepKey s Key.escape = s) ∧
    (s.showHelpMenu = false ∧ s.showSlashMenu = false →
      (stepKey s Key.escape).focus = Focus.outputBuf ∧
      (stepKey s Key.escape).showHelpMenu = false ∧
      (stepKey s Key.escape).showSlashMenu = false ∧
      (stepKey s Key.escape).inputText = s.inputText) := by
  constructor
  · intro h
    have : ¬ (s.showHelpMenu = false ∧ s.showSlashMenu = false) := by
      rcases h with h | h <;> simp [h]
    simp [stepKey, this]
  · intro h
    simp [stepKey, h.1, h.2]

/-- Witness for `c5_amended` at a state with the overlay open and at
the initial state. -/
theorem c5_amended_witness :
    stepKey c5State Key.escape = c5State ∧
    (stepKey initShell Key.escape).focus = Focus.outputBuf :=
  ⟨(c5_amended c5State).1 (Or.inr (by decide)),
   ((c5_amended initShell).2 (by decide)).1⟩

/-- Keystroke trace for the C6 counterexample: type `status`, submit it
with Enter, then open the Help overlay with `?`. -/
def c6Keys : List Key :=
  [.chr 's', .chr 't', .chr 'a', .chr 't', .chr 'u', .chr 's',
   .enter, .question]

/-- The shell state reached by `c6Keys` from the initial state. -/
def c6State : Shell := c6Keys.foldl stepKey initShell

/-- C6 (counterexample): with the HELP overlay visible (and not in
Scroll mode), Up does not navigate any overlay selection — the up
binding checks only `show_slash_menu` — it performs history navigation
and mutates the Input text from `""` to `"status"`. -/
theorem c6_counterexample :
    c6State.showHelpMenu = true ∧
    c6State.showSlashMenu = false ∧
    c6State.focus = Focus.inputBuf ∧
    c6State.inputText = "" ∧
    (stepKey c6State Key.up).inputText = "status" := by decide

/-- C6 (amended): only the SLASH overlay has a selection: with it
visible, not in Scroll mode and a non-empty filtered list, Up moves the
selection down by one (clamped at 0), Down moves it up by one (clamped
at `len - 1`, no wrap), and neither touches the Input text, the History
sequence or the history cursor; with only the Help overlay visible,
Up/Down do plain history navigation instead. -/
theorem c6_amended (s : Shell)
    (hf : s.focus = Focus.inputBuf) (hm : s.showSlashMenu = true)
    (hne : getFilteredCommands s.inputText ≠ []) :
    (stepKey s Key.up).slashMenuIndex = s.slashMenuIndex - 1 ∧
    (stepKey s Key.down).slashMenuIndex =
      min ((getFilteredCommands s.inputText).length - 1)
        (s.slashMenuIndex + 1) ∧
    (stepKey s Key.up).inputText = s.inputText ∧
    (stepKey s Key.down).inputText = s.inputText ∧
    (stepKey s Key.up).history = s.history ∧
    (stepKey s Key.down).history = s.history ∧
    (stepKey s Key.up).historyIndex = s.historyIndex ∧
    (stepKey s Key.down).historyIndex = s.historyIndex := by
  simp [stepKey, hf, hm, hne]

/-- Witness for `c6_amended` at the slash-overlay state `c5State`. -/
theorem c6_amended_witness :
    c5State.focus = Focus.inputBuf ∧ c5State.showSlashMenu = true ∧
    getFilteredCommands c5State.inputText ≠ [] ∧
    (stepKey c5State Key.up).slashMenuIndex = c5State.slashMenuIndex - 1 :=
  ⟨by decide, by decide, by decide,
   (c6_amended c5State (by decide) (by decide) (by decide)).1⟩

/-- Lemma: `_process_input` never touches the overlay flags. -/
theorem processInput_menuFlags (s : Shell) :
    (processInput s).1.showHelpMenu = s.showHelpMenu ∧
    (processInput s).1.showSlashMenu = s.showSlashMenu := by
  unfold processInput
  by_cases h0 : trimStr s.inputText = ""
  · simp [h0]
  · by_cases h1 : trimStr s.inputText = "exit" ∨ trimStr s.inputText = "quit"
    · simp [h0, h1, appendOutput]
    · by_cases h2 : trimStr s.inputText = "clear"
      · simp [h0, h1, h2, appendOutput]
      · simp [h0, h1, h2, appendOutput]

/-- Lemma: `delete_before_cursor` never touches the overlay flags. -/
theorem deleteBefore_flags (s : Shell) :
    (deleteBefore s).showHelpMenu = s.showHelpMenu ∧
    (deleteBefore s).showSlashMenu = s.showSlashMenu := by
  unfold deleteBefore
  split
  · exact ⟨rfl, rfl⟩
  · split
    · exact ⟨rfl, rfl⟩
    · exact ⟨rfl, rfl⟩

/-- Every key binding preserves overlay mutual exclusion: no handler
sets one overlay flag true without clearing the other. -/
theorem stepKey_exclusive (s : Shell) (k : Key)
    (h : (s.showHelpMenu && s.showSlashMenu) = false) :
    ((stepKey s k).showHelpMenu && (stepKey s k).showSlashMenu) = false := by
  cases k with
  | ctrlC => simp [stepKey]
  | ctrlD => exact h
  | enter =>
      have hp := processInput_menuFlags
        { s with showSlashMenu := false, showHelpMenu := false
                 slashMenuIndex := 0 }
      simp only [stepKey]
      rw [hp.1, hp.2]
      rfl
  | tab =>
      simp only [stepKey]
      split
      · simp
      · exact h
  | up =>
      simp only [stepKey]
      repeat' split
      all_goals exact h
  | down =>
      simp only [stepKey]
      repeat' split
      all_goals exact h
  | pageUp => exact h
  | pageDown => exact h
  | shiftUp => exact h
  | shiftDown => exact h
  | escape =>
      simp only [stepKey]
      split
      · exact h
      · exact h
  | keyI =>
      simp only [stepKey]
      split
      · exact h
      · exact h
  | ctrlK => exact h
  | ctrlJ => exact h
  | question => simp [stepKey]
  | slash => simp [stepKey, insertChar]
  | backspace =>
      have hd := deleteBefore_flags s
      simp only [stepKey]
      split
      · simp
      · show ((deleteBefore s).showHelpMenu &&
          (deleteBefore s).showSlashMenu) = false
        rw [hd.1, hd.2]
        exact h
  | chr c => exact h

/-- C10: starting from the initial state, for every keystroke sequence
the Help and Slash overlays are never both visible — each handler that
opens one overlay clears the other (`?` toggles help and clears slash;
`/` opens slash and clears help). -/
theorem c10_theorem (ks : List Key) :
    ((ks.foldl stepKey initShell).showHelpMenu &&
      (ks.foldl stepKey initShell).showSlashMenu) = false := by
  have main : ∀ (ks : List Key) (s : Shell),
      (s.showHelpMenu && s.showSlashMenu) = false →
      ((ks.foldl stepKey s).showHelpMenu &&
        (ks.foldl stepKey s).showSlashMenu) = false := by
    intro ks
    induction ks with
    | nil => intro s hs; simpa using hs
    | cons k ks ih =>
        intro s hs
        exact ih (stepKey s k) (stepKey_exclusive s k hs)
  exact main ks initShell (by decide)

/-- Effective history cursor: the up binding creates `_history_index`
lazily, initializing it to `len(history)` when absent, so the
observable cursor value is `getD len(history)`. -/
def effHistoryIndex (s : Shell) : Nat :=
  s.historyIndex.getD s.history.length

/-- Submitting one line with `submitAll`: set the input text and run
`_process_input` (dropping the spawned dispatch). -/
def submitOne (t : Shell) (c : String) : Shell :=
  (processInput { t with inputText := c, cursorPos := c.data.length }).1

/-- A sequence of submissions from a starting state. -/
def submitAll (s : Shell) (cmds : List String) : Shell :=
  cmds.foldl submitOne s

/-- Lemma: `_process_input` on a non-blank line appends the stripped text to
History, resets the history cursor to the new `len(history)`, clears
the input line, and leaves focus, overlay flags and the history's other
entries unchanged. -/
theorem processInput_submit (s : Shell) (h : trimStr s.inputText ≠ "") :
    (processInput s).1.history = s.history ++ [trimStr s.inputText] ∧
    (processInput s).1.historyIndex = some (s.history.length + 1) ∧
    (processInput s).1.inputText = "" ∧
    (processInput s).1.focus = s.focus ∧
    (processInput s).1.showSlashMenu = s.showSlashMenu := by
  unfold processInput
  by_cases h1 : trimStr s.inputText = "exit" ∨ trimStr s.inputText = "quit"
  · simp [h, h1, appendOutput]
  · by_cases h2 : trimStr s.inputText = "clear"
    · simp [h, h1, h2, appendOutput]
    · simp [h, h1, h2, appendOutput]

/-- The up binding's history branch (no scroll focus, no slash overlay,
non-empty history): decrement the cursor by one clamped at 0, and when
it lands on an entry mirror it into the input with the cursor at the
end. -/
theorem up_behavior (s : Shell) (hf : s.focus = Focus.inputBuf)
    (hm : s.showSlashMenu = false) (hh : s.history ≠ []) :
    (stepKey s Key.up).historyIndex = some (effHistoryIndex s - 1) ∧
    (effHistoryIndex s - 1 < s.history.length →
      (stepKey s Key.up).inputText =
        s.history.getD (effHistoryIndex s - 1) "" ∧
      (stepKey s Key.up).cursorPos =
        (s.history.getD (effHistoryIndex s - 1) "").data.length) ∧
    (stepKey s Key.up).history = s.history := by
  simp only [stepKey, hf, hm, effHistoryIndex]
  by_cases hlt : s.historyIndex.getD s.history.length - 1 < s.history.length <;>
    simp [hh, hlt]

/-- The down binding's history branch: increment the cursor by one
clamped at `len(history)`; mirror the entry below the clamp, and show
an empty input line at the maximum. -/
theorem down_behavior (s : Shell) (i : Nat) (hf : s.focus = Focus.inputBuf)
    (hm : s.showSlashMenu = false) (hh : s.history ≠ [])
    (hi : s.historyIndex = some i) :
    (stepKey s Key.down).historyIndex =
      some (min s.history.length (i + 1)) ∧
    (min s.history.length (i + 1) < s.history.length →
      (stepKey s Key.down).inputText =
        s.history.getD (min s.history.length (i + 1)) "") ∧
    (¬ min s.history.length (i + 1) < s.history.length →
      (stepKey s Key.down).inputText = "") ∧
    (stepKey s Key.down).history = s.history := by
  simp only [stepKey, hf, hm, hi]
  by_cases hlt : min s.history.length (i + 1) < s.history.length <;>
    simp [hh, hlt]

/-- Invariant of a submission sequence: history collects the stripped
lines in order, the cursor tracks `len(history)`, the input ends
cleared, and focus/overlay state is untouched. -/
theorem submitAll_spec (cmds : List String) :
    ∀ s : Shell, (∀ c ∈ cmds, trimStr c ≠ "") →
      (submitAll s cmds).history = s.history ++ cmds.map trimStr ∧
      (submitAll s cmds).historyIndex =
        (if cmds = [] then s.historyIndex
         else some (s.history.length + cmds.length)) ∧
      (submitAll s cmds).inputText =
        (if cmds = [] then s.inputText else "") ∧
      (submitAll s cmds).focus = s.focus ∧
      (submitAll s cmds).showSlashMenu = s.showSlashMenu := by
  induction cmds with
  | nil => intro s _; simp [submitAll]
  | cons c cs ih =>
      intro s hall
      have hc : trimStr c ≠ "" := hall c (List.mem_cons_self c cs)
      have hcs : ∀ x ∈ cs, trimStr x ≠ "" := fun x hx =>
        hall x (List.mem_cons_of_mem c hx)
      have hp := processInput_submit
        { s with inputText := c, cursorPos := c.data.length } hc
      have hrec := ih (submitOne s c) hcs
      have hstep : submitAll s (c :: cs) = submitAll (submitOne s c) cs := rfl
      rw [hstep]
      obtain ⟨r1, r2, r3, r4, r5⟩ := hrec
      obtain ⟨p1, p2, p3, p4, p5⟩ := hp
      refine ⟨?_, ?_, ?_, ?_, ?_⟩
      · rw [r1]
        show (processInput _).1.history ++ _ = _
        rw [p1]
        simp
      · rw [r2]
        by_cases hcse : cs = []
        · subst hcse
          show (if ([] : List String) = [] then
              (processInput _).1.historyIndex else _) = _
          rw [if_pos rfl, p2]
          simp
        · rw [if_neg hcse, if_neg (by simp)]
          show some ((submitOne s c).history.length + cs.length) = _
          have : (submitOne s c).history =
              s.history ++ [trimStr c] := p1
          rw [this]
          simp
          omega
      · rw [r3]
        by_cases hcse : cs = []
        · subst hcse
          show (if ([] : List String) = [] then
              (processInput _).1.inputText else _) = _
          rw [if_pos rfl, p3]
          simp
        · rw [if_neg hcse, if_neg (by simp)]
      · rw [r4]
        exact p4
      · rw [r5]
        exact p5

/-- C8: history navigation and submit.  (i) Up (no overlay, input
focus, non-empty history) decrements the effective history cursor by
one clamped at 0 and mirrors the entry into the input with the cursor
at its end; (ii) Down increments it clamped at `len(history)`, showing
the entry below the clamp and an empty line at the maximum; (iii)
submitting a non-blank command appends it to History and resets the
cursor to the new `len(history)`; hence (iv) after `n` submissions the
effective cursor equals `n == len(history)` and Down yields an empty
input line. -/
theorem c8_theorem :
    (∀ s : Shell, s.focus = Focus.inputBuf → s.showSlashMenu = false →
      s.history ≠ [] →
      (stepKey s Key.up).historyIndex = some (effHistoryIndex s - 1) ∧
      (effHistoryIndex s - 1 < s.history.length →
        (stepKey s Key.up).inputText =
          s.history.getD (effHistoryIndex s - 1) "" ∧
        (stepKey s Key.up).cursorPos =
          (s.history.getD (effHistoryIndex s - 1) "").data.length)) ∧
    (∀ (s : Shell) (i : Nat), s.focus = Focus.inputBuf →
      s.showSlashMenu = false → s.history ≠ [] → s.historyIndex = some i →
      (stepKey s Key.down).historyIndex =
        some (min s.history.length (i + 1)) ∧
      (min s.history.length (i + 1) < s.history.length →
        (stepKey s Key.down).inputText =
          s.history.getD (min s.history.length (i + 1)) "") ∧
      (¬ min s.history.length (i + 1) < s.history.length →
        (stepKey s Key.down).inputText = "")) ∧
    (∀ s : Shell, trimStr s.inputText ≠ "" →
      (processInput s).1.history = s.history ++ [trimStr s.inputText] ∧
      (processInput s).1.historyIndex =
        some ((processInput s).1.history.length)) ∧
    (∀ cmds : List String, (∀ c ∈ cmds, trimStr c ≠ "") →
      (submitAll initShell cmds).history.length = cmds.length ∧
      effHistoryIndex (submitAll initShell cmds) = cmds.length ∧
      (stepKey (submitAll initShell cmds) Key.down).inputText = "") := by
  refine ⟨?_, ?_, ?_, ?_⟩
  · intro s hf hm hh
    obtain ⟨u1, u2, _⟩ := up_behavior s hf hm hh
    exact ⟨u1, u2⟩
  · intro s i hf hm hh hi
    obtain ⟨d1, d2, d3, _⟩ := down_behavior s i hf hm hh hi
    exact ⟨d1, d2, d3⟩
  · intro s h
    obtain ⟨p1, p2, _⟩ := processInput_submit s h
    refine ⟨p1, ?_⟩
    rw [p2, p1]
    simp
  · intro cmds hall
    obtain ⟨r1, r2, r3, r4, r5⟩ := submitAll_spec cmds initShell hall
    by_cases hc : cmds = []
    · subst hc
      exact ⟨by decide, by decide, by decide⟩
    · have hlen : (submitAll initShell cmds).history.length = cmds.length := by
        rw [r1]; simp [initShell]
      have hidx : (submitAll initShell cmds).historyIndex =
          some cmds.length := by
        rw [r2, if_neg hc]; simp [initShell]
      have heff : effHistoryIndex (submitAll initShell cmds) = cmds.length := by
        simp [effHistoryIndex, hidx]
      refine ⟨hlen, heff, ?_⟩
      have hhne : (submitAll initShell cmds).history ≠ [] := by
        intro hcon
        rw [hcon] at hlen
        simp at hlen
        exact hc (List.length_eq_zero.mp hlen.symm)
      obtain ⟨_, _, d3, _⟩ := down_behavior (submitAll initShell cmds)
        cmds.length (by rw [r4]; rfl) (by rw [r5]; rfl) hhne hidx
      apply d3
      rw [hlen]
      simp

/-- Witness for `c8_theorem`: instantiate each part at a concrete
state/submission list; after submitting `status`, Up mirrors the entry
into the Input with the cursor at its end (position 6). -/
theorem c8_theorem_witness :
    ((stepKey (submitAll initShell ["status"]) Key.up).inputText
        = "status") ∧
    (stepKey (submitAll initShell ["status"]) Key.up).cursorPos = 6 ∧
    (stepKey (submitAll initShell ["status"]) Key.down).inputText = "" ∧
    (submitAll initShell ["status", "help"]).history.length = 2 := by
  have h := c8_theorem
  have hu := (h.1 (submitAll initShell ["status"]) (by decide) (by decide)
      (by decide)).2 (by decide)
  refine ⟨?_, ?_, ?_, ?_⟩
  · rw [hu.1]
    decide
  · rw [hu.2]
    decide
  · exact (h.2.2.2 ["status"] (by decide)).2.2
  · exact (h.2.2.2 ["status", "help"] (by decide)).1

/-- Lemma: `find?` over the first-wins fold equals `find?` over the raw match
list: the fold only skips pairs whose key is already registered, which
never changes the first hit for any fixed key. -/
theorem find?_foldl_insertIfAbsent (k : String) (ms : List (String × String)) :
    ∀ acc : List (String × String),
      ((ms.foldl insertIfAbsent acc).find? (fun p => p.1 = k)) =
        ((acc.find? (fun p => p.1 = k)).or
          (ms.find? (fun p => p.1 = k))) := by
  induction ms with
  | nil => intro acc; simp
  | cons m ms ih =>
      intro acc
      rw [List.foldl_cons, ih]
      unfold insertIfAbsent
      by_cases hin : acc.any (fun q => q.1 = m.1)
      · rw [if_pos hin]
        by_cases hk : m.1 = k
        · have hex : ∃ x ∈ acc, x.1 = m.1 := by simpa using hin
          obtain ⟨x, hx, hxk⟩ := hex
          have hsome : (acc.find? (fun p => p.1 = k)).isSome := by
            apply List.find?_isSome.mpr
            exact ⟨x, hx, by simp [hxk, hk]⟩
          obtain ⟨a, ha⟩ := Option.isSome_iff_exists.mp hsome
          rw [ha]
          rfl
        · rw [List.find?_cons_of_neg _ (by simp [hk])]
      · rw [if_neg hin, List.find?_append]
        by_cases hk : m.1 = k
        · have hnone : acc.find? (fun p => p.1 = k) = none := by
            apply List.find?_eq_none.mpr
            intro x hx
            simp only [decide_eq_true_eq]
            intro hxk
            apply hin
            simp only [List.any_eq_true]
            exact ⟨x, hx, by simp [hxk, hk]⟩
          rw [hnone, List.find?_cons_of_pos _ (by simp [hk])]
          simp [hk]
        · have h1 : List.find? (fun p => decide (p.1 = k)) (m :: ms) =
              List.find? (fun p => decide (p.1 = k)) ms :=
            List.find?_cons_of_neg _ (by simp [hk])
          have h2 : List.find? (fun p => decide (p.1 = k)) [m] = none := by
            rw [List.find?_cons_of_neg _ (by simp [hk])]
            rfl
          rw [h1, h2]
          cases acc.find? (fun p => decide (p.1 = k)) <;> rfl

/-- The C7 counterexample line: the key `name` occurs twice, first
unquoted (`foo`), then double-quoted (`bar baz`). -/
def c7Line : String := "/name foo /name \"bar baz\""

/-- C7 (counterexample): on `/name foo /name "bar baz"` the FIRST
occurrence of `name` in left-to-right line order carries `foo`, but the
code scans the three double-quoted patterns before the unquoted one, so
`name` is registered as `bar baz` — pattern order beats line order. -/
theorem c7_counterexample :
    (parseSlashCommand c7Line []).1 = [("name", "bar baz")] ∧
    ("bar baz" : String) ≠ "foo" := by
  constructor
  · rfl
  · decide

/-- C7 (amended): the parameter map is built pattern class by pattern
class — all double-quoted `/key "value"` matches of the line first (in
line order), then single-quoted, then unquoted — with the first
registration of a key winning; so a key's value is its first occurrence
in that pattern-ordered match sequence, not in plain line order.  Keys
not expected by the command are still included: the map does not depend
on `expected_params` at all. -/
theorem c7_amended (line : String) (expected : List (String × Bool))
    (k : String) :
    lookupParam (parseSlashCommand line expected).1 k =
      ((allMatches line).find? (fun p => p.1 = k)).map (fun p => p.2) ∧
    (parseSlashCommand line expected).1 = (parseSlashCommand line []).1 := by
  constructor
  · unfold lookupParam parseSlashCommand
    rw [find?_foldl_insertIfAbsent]
    rfl
  · rfl

/-- A concrete collaborator oracle used by witnesses: credentials come
from the environment, login succeeds, lookups succeed. -/
def sampleOracle : Oracle :=
  { envUsername := some "user", envPassword := some "pass"
    credFileExists := false, credJsonLoad := .ok (none, none)
    loginResult := true, reloginResult := true
    vesselLookup := fun _ => some "record", searchByName := fun _ => []
    formatVessel := fun v f => .ok (v ++ ":" ++ f)
    formatList := fun _ _ => .ok "list", fileWrite := fun _ _ => .ok () }

/-- C9: parse-error atomicity.  `vessel` without a usable `/imo` only
appends its two error lines; `format` with an argument outside
`{table, json, csv}` (after strip+lower) only appends its error line.
Stated as record-update equalities: every field other than the
transcript — `output_format`, `logged_in`, `client`, the Loading state,
`last_operation` — is unchanged. -/
theorem c9_theorem :
    (∀ (o : Oracle) (s : Shell) (args : String),
      (parseSlashCommand args vesselExpected).2 = false →
      cmdVessel o s args = .ok { s with transcript := s.transcript ++
        ["Error: Missing required parameter /imo",
         "Usage: vessel /imo <IMO_NUMBER> [/format table|json|csv]"] }) ∧
    (∀ (s : Shell) (args : String),
      (["table", "json", "csv"].contains (lowerStr (trimStr args))) = false →
      cmdFormat s args = { s with transcript := s.transcript ++
        ["Invalid format. Use: table, json, or csv"] }) := by
  constructor
  · intro o s args h
    unfold cmdVessel
    rw [if_pos h]
    simp [appendOutput]
  · intro s args h
    unfold cmdFormat
    simp only [h]
    simp [appendOutput]

/-- Witness for `c9_theorem`: `vessel` with empty arguments and
`format xml`. -/
theorem c9_theorem_witness :
    (parseSlashCommand "" vesselExpected).2 = false ∧
    cmdVessel sampleOracle initShell "" =
      .ok { initShell with transcript := initShell.transcript ++
        ["Error: Missing required parameter /imo",
         "Usage: vessel /imo <IMO_NUMBER> [/format table|json|csv]"] } ∧
    (["table", "json", "csv"].contains (lowerStr (trimStr "xml"))) = false ∧
    cmdFormat initShell "xml" =
      { initShell with transcript := initShell.transcript ++
        ["Invalid format. Use: table, json, or csv"] } :=
  ⟨by decide, c9_theorem.1 sampleOracle initShell "" (by decide),
   by decide, c9_theorem.2 initShell "xml" (by decide)⟩

/-- App state with a first command typed, before Enter. -/
def c1App0 : AppState :=
  { shell := { initShell with inputText := "vessel /imo 1", cursorPos := 13 }
    inFlight := [] }

/-- After submitting the first command: its worker is in flight and the
loading indicator is on. -/
def c1App1 : AppState := submitEvent c1App0

/-- A second command is typed and submitted while the first worker is
still in flight (no completion event has occurred). -/
def c1App2 : AppState :=
  submitEvent { c1App1 with shell :=
    { c1App1.shell with inputText := "status", cursorPos := 6 } }

/-- C1 (counterexample): while `is_loading` is true and the first
command's worker is still in flight, submitting `status` is neither
rejected nor deferred: `_process_input` never reads `is_loading`, the
second command is echoed to the Transcript, and `process_async` submits
a second worker — two dispatches are in flight at once, so the Command
Dispatcher can run concurrently with itself. -/
theorem c1_counterexample :
    c1App1.shell.isLoading = true ∧
    c1App1.inFlight = ["vessel /imo 1"] ∧
    c1App2.shell.isLoading = true ∧
    c1App2.inFlight = ["vessel /imo 1", "status"] ∧
    c1App2.shell.transcript = ["❯ vessel /imo 1", "❯ status"] := by
  decide

/-- C1 (amended): a submission while Loading is active is accepted and
started exactly like any other submission: for every state with
`is_loading = true` and a non-blank, non-special input line, the
submission immediately appends a new worker to the in-flight set (its
`process_async` starts without waiting), leaving the earlier dispatch
still in flight. -/
theorem c1_amended (a : AppState) (hl : a.shell.isLoading = true)
    (hne : trimStr a.shell.inputText ≠ "")
    (hx : trimStr a.shell.inputText ≠ "exit")
    (hq : trimStr a.shell.inputText ≠ "quit")
    (hc : trimStr a.shell.inputText ≠ "clear") :
    (submitEvent a).inFlight = a.inFlight ++ [trimStr a.shell.inputText] ∧
    (submitEvent a).shell.isLoading = true := by
  unfold submitEvent processInput
  simp [hne, hx, hq, hc, appendOutput, startDispatch]

/-- Witness for `c1_amended` at the loading state `c1App1` with
`status` typed. -/
theorem c1_amended_witness :
    (submitEvent { c1App1 with shell :=
        { c1App1.shell with inputText := "status", cursorPos := 6 } }).inFlight
      = c1App1.inFlight ++ ["status"] :=
  (c1_amended _ (by decide) (by decide) (by decide) (by decide)
    (by decide)).1

/-- Did the computation complete without a propagating exception? -/
def okB {α : Type} : Except PyExc α → Bool
  | .ok _ => true
  | .error _ => false

/-- If credential loading raises nothing uncaught, `ensure_authenticated`
completes normally for every shell state (all client calls it makes are
total). -/
theorem ensureAuthenticated_ok (o : Oracle) (s : Shell)
    (h : okB (getCredentials o) = true) :
    okB (ensureAuthenticated o s) = true := by
  unfold ensureAuthenticated
  split
  · split
    · rename_i e heq
      rw [heq] at h
      simp [okB] at h
    · split
      · rfl
      · split <;> rfl
  · rfl

/-- If credential loading raises nothing uncaught, `_cmd_vessel`
completes normally: every other fallible step sits inside its
`try/except Exception` block. -/
theorem cmdVessel_ok (o : Oracle) (s : Shell) (args : String)
    (h : okB (getCredentials o) = true) :
    okB (cmdVessel o s args) = true := by
  unfold cmdVessel
  by_cases hpr : (parseSlashCommand args vesselExpected).2 = false
  · simp [hpr, okB]
  · simp only [hpr, if_false, ite_false, eq_self_iff_true, if_neg]
    have he := ensureAuthenticated_ok o s h
    cases hea : ensureAuthenticated o s with
    | error e =>
        rw [hea] at he
        simp [okB] at he
    | ok pair =>
        simp only [hea]
        obtain ⟨s1, auth⟩ := pair
        by_cases hauth : auth = false
        · simp [hauth, okB]
        · simp only [hauth, if_false, ite_false, if_neg]
          repeat' split
          all_goals rfl

/-- Same for `_cmd_search`. -/
theorem cmdSearch_ok (o : Oracle) (s : Shell) (args : String)
    (h : okB (getCredentials o) = true) :
    okB (cmdSearch o s args) = true := by
  unfold cmdSearch
  by_cases hpr : (truthy (lookupParam (parseSlashCommand args
      searchExpected).1 "name") ||
      truthy (lookupParam (parseSlashCommand args searchExpected).1 "imo")) = false
  · simp [hpr, okB]
  · simp only [hpr, if_false, ite_false, eq_self_iff_true, if_neg]
    have he := ensureAuthenticated_ok o s h
    cases hea : ensureAuthenticated o s with
    | error e =>
        rw [hea] at he
        simp [okB] at he
    | ok pair =>
        simp only [hea]
        obtain ⟨s1, auth⟩ := pair
        by_cases hauth : auth = false
        · simp [hauth, okB]
        · simp only [hauth, if_false, ite_false, if_neg]
          repeat' split
          all_goals rfl

/-- The oracle whose credentials file exists but holds bytes that make
`json.load` raise `UnicodeDecodeError` — an exception outside the
`except (json.JSONDecodeError, IOError)` clause. -/
def badCredOracle : Oracle :=
  { envUsername := none, envPassword := none
    credFileExists := true, credJsonLoad := .error .unicodeDecodeError
    loginResult := true, reloginResult := true
    vesselLookup := fun _ => none, searchByName := fun _ => []
    formatVessel := fun _ _ => .ok "", formatList := fun _ _ => .ok ""
    fileWrite := fun _ _ => .ok () }

/-- C2 (counterexample): dispatching `vessel /imo 1` on a fresh shell
(no client yet) with such a credentials file raises out of
`_process_command` to its caller: `get_credentials()` is called at
`ensure_authenticated` lines 915-916, OUTSIDE every `try`, and the
dispatch boundary's capture block is `try/finally` with no `except` —
nothing is rendered to the Transcript and the dispatch does not
complete normally. -/
theorem c2_counterexample :
    processCommand badCredOracle initShell "vessel /imo 1" =
      .error .unicodeDecodeError := by
  rfl

/-- C2 (amended): the dispatch boundary catches nothing — a handler
exception propagates to the caller (only the stdout/stderr restoration
in `finally` runs).  In this code the handlers themselves catch their
collaborator errors, so dispatch completes normally for EVERY input
line and every state provided credential loading raises nothing
uncaught; the surviving raise path is a credentials-file read failing
with an exception outside `(JSONDecodeError, IOError)`. -/
theorem c2_amended (o : Oracle) (s : Shell) (line : String)
    (h : okB (getCredentials o) = true) :
    okB (processCommand o s line) = true := by
  unfold processCommand
  split
  · rfl
  · dsimp only
    split
    · exact cmdVessel_ok o s _ h
    · split
      · exact cmdSearch_ok o s _ h
      · split
        · rfl
        · split
          · rfl
          · split
            · rfl
            · split
              · rfl
              · split <;> rfl

/-- Witness for `c2_amended`: with the sample oracle (environment
credentials present, so config loading is not reached), every dispatch
completes. -/
theorem c2_amended_witness :
    okB (getCredentials sampleOracle) = true ∧
    okB (processCommand sampleOracle initShell "vessel /imo 1") = true :=
  ⟨by decide, c2_amended sampleOracle initShell "vessel /imo 1"
    (by decide)⟩

end EquasisShell
